import Mathlib

/-!
Verification of the ADM datamart construction pipeline
(`pdstools/adm/new_ADMDatamart.py`): schema normalization, key
extraction, context-key selection, derived-metric computation,
predictor categorization, query filtering, combination and persistence.

Tabular data is embedded shallowly: a data frame is a schema (column
names with dtypes) plus rows of named values; the polars lazy frame is
an explicit operation tree whose `collect` materializes it and whose
errors (missing columns) surface only at materialization.  Float64
cells are modelled as rationals extended with `nan`/`inf`/`-inf`, and
missing data as an explicit `null` value, mirroring polars' distinction
between NaN and null.
-/

set_option maxHeartbeats 1000000

namespace PDStools

/-- Decidable equality for `Except`, so that runs of the pipeline can be
compared on concrete inputs. -/
instance {ε α : Type} [DecidableEq ε] [DecidableEq α] : DecidableEq (Except ε α) :=
  fun a b =>
    match a, b with
    | .ok x, .ok y =>
        if h : x = y then .isTrue (by cases h; rfl)
        else .isFalse (by intro hc; cases hc; exact h rfl)
    | .error x, .error y =>
        if h : x = y then .isTrue (by cases h; rfl)
        else .isFalse (by intro hc; cases hc; exact h rfl)
    | .ok _, .error _ => .isFalse (by intro hc; cases hc)
    | .error _, .ok _ => .isFalse (by intro hc; cases hc)

/-- Column data types, mirroring the polars dtypes the pipeline inspects. -/
inductive DType where
  | intT
  | floatT
  | strT
  | boolT
  | datetimeT
  | nullT
deriving DecidableEq

/-- Float64 values: the IEEE special values plus finite rationals. -/
inductive FloatV where
  | nan
  | inf
  | negInf
  | fin (q : ℚ)
deriving DecidableEq

/-- Cell values: null (missing), integer, float, string, boolean, datetime. -/
inductive Value where
  | null
  | int (n : ℤ)
  | float (f : FloatV)
  | str (s : String)
  | bool (b : Bool)
  | dt (t : ℤ)
deriving DecidableEq

/-- IEEE-style addition on extended floats. -/
def FloatV.add : FloatV → FloatV → FloatV
  | .nan, _ => .nan
  | _, .nan => .nan
  | .inf, .negInf => .nan
  | .negInf, .inf => .nan
  | .inf, _ => .inf
  | _, .inf => .inf
  | .negInf, _ => .negInf
  | _, .negInf => .negInf
  | .fin a, .fin b => .fin (a + b)

/-- IEEE-style true division on extended floats: `0/0 = NaN`, `x/0 = ±inf`. -/
def FloatV.div : FloatV → FloatV → FloatV
  | .nan, _ => .nan
  | _, .nan => .nan
  | .inf, .inf => .nan
  | .inf, .negInf => .nan
  | .negInf, .inf => .nan
  | .negInf, .negInf => .nan
  | .inf, .fin b => if b < 0 then .negInf else .inf
  | .negInf, .fin b => if b < 0 then .inf else .negInf
  | .fin _, .inf => .fin 0
  | .fin _, .negInf => .fin 0
  | .fin a, .fin b =>
      if b = 0 then (if a = 0 then .nan else if 0 < a then .inf else .negInf)
      else .fin (a / b)

/-- IEEE-style strict greater-than; any comparison with NaN is false. -/
def FloatV.gtB : FloatV → FloatV → Bool
  | .nan, _ => false
  | _, .nan => false
  | .inf, .inf => false
  | .inf, _ => true
  | .negInf, _ => false
  | .fin _, .inf => false
  | .fin _, .negInf => true
  | .fin a, .fin b => decide (b < a)

/-- Numeric view of a value: integers are promoted to finite floats. -/
def Value.toFloatV : Value → Option FloatV
  | .int n => some (.fin n)
  | .float f => some f
  | _ => none

/-- polars `+` on cells: null propagates; int+int stays int; otherwise float. -/
def Value.addV : Value → Value → Value
  | .null, _ => .null
  | _, .null => .null
  | .int a, .int b => .int (a + b)
  | a, b =>
      match a.toFloatV, b.toFloatV with
      | some x, some y => .float (x.add y)
      | _, _ => .null

/-- polars `/` on cells: always float-valued; null propagates. -/
def Value.divV : Value → Value → Value
  | .null, _ => .null
  | _, .null => .null
  | a, b =>
      match a.toFloatV, b.toFloatV with
      | some x, some y => .float (x.div y)
      | _, _ => .null

/-- polars `>` on cells: null propagates, NaN compares false. -/
def Value.gtV : Value → Value → Value
  | .null, _ => .null
  | _, .null => .null
  | a, b =>
      match a.toFloatV, b.toFloatV with
      | some x, some y => .bool (x.gtB y)
      | _, _ => .null

/-- Upcast an integer cell to float (the cast polars inserts when a
fill value of integer type is used in a float-typed expression). -/
def Value.castF : Value → Value
  | .int n => .float (.fin n)
  | v => v

/-- The dtype of a literal value. -/
def Value.dtypeOf : Value → DType
  | .null => .nullT
  | .int _ => .intT
  | .float _ => .floatT
  | .str _ => .strT
  | .bool _ => .boolT
  | .dt _ => .datetimeT

/-- Modelled from the spec: `cdh_utils.default_predictor_categorization`
(not under `src/`) derives a category from structural properties of the
predictor's name: a dotted name is classified by its first segment,
anything else as `Primary`. -/
def categorizeName (s : String) : String :=
  if s.data.contains '.' then ⟨s.data.takeWhile (fun c => c ≠ '.')⟩ else "Primary"

/-- Modelled from the spec: `cdh_utils.parse_pega_date_time_formats`
(not under `src/`) is a best-effort multi-format parse of a date-time
string; here a string of at least 8 digits parses, anything else does not. -/
def parsePegaTs (s : String) : Option ℤ :=
  if 8 ≤ s.data.length ∧ s.data.all Char.isDigit then
    some ((s.data.foldl (fun acc c => acc * 10 + c.toNat - 48) 0 : ℕ) : ℤ)
  else none

/-- Column expressions, as composed by the pipeline
(`pl.col`, `pl.lit`, `+`, `/`, `>`, `fill_nan`, the categorization rule
and the date-time parser). -/
inductive Expr where
  | col (c : String)
  | lit (v : Value)
  | add (a b : Expr)
  | div (a b : Expr)
  | gt (a b : Expr)
  | fillNan (a fill : Expr)
  | catOf (c : String)
  | parseDT (c : String)
deriving DecidableEq

/-- The columns an expression references. -/
def Expr.cols : Expr → List String
  | .col c => [c]
  | .lit _ => []
  | .add a b => a.cols ++ b.cols
  | .div a b => a.cols ++ b.cols
  | .gt a b => a.cols ++ b.cols
  | .fillNan a b => a.cols ++ b.cols
  | .catOf c => [c]
  | .parseDT c => [c]

/-- A row: named cell values, in column order. -/
abbrev Row := List (String × Value)

/-- Value of a column in a row (null when absent). -/
def getV : Row → String → Value
  | [], _ => .null
  | p :: rest, c => if p.1 = c then p.2 else getV rest c

/-- Write a column in a row: replace in place when present, else append
(polars `with_columns` semantics). -/
def setCol : Row → String → Value → Row
  | [], c, v => [(c, v)]
  | p :: rest, c, v => if p.1 = c then (c, v) :: rest else p :: setCol rest c v

/-- Evaluate an expression over one row. -/
def evalExpr : Expr → Row → Value
  | .col c, r => getV r c
  | .lit v, _ => v
  | .add a b, r => (evalExpr a r).addV (evalExpr b r)
  | .div a b, r => (evalExpr a r).divV (evalExpr b r)
  | .gt a b, r => (evalExpr a r).gtV (evalExpr b r)
  | .fillNan a fill, r =>
      match evalExpr a r with
      | .float .nan => (evalExpr fill r).castF
      | v => v
  | .catOf c, r =>
      match getV r c with
      | .str s => .str (categorizeName s)
      | _ => .null
  | .parseDT c, r =>
      match getV r c with
      | .str s => (parsePegaTs s).elim .null .dt
      | .dt t => .dt t
      | _ => .null

/-- A schema: column names with dtypes, in order. -/
abbrev Schema := List (String × DType)

/-- The names of a schema. -/
def Schema.names (s : Schema) : List String := s.map (fun p => p.1)

/-- Dtype of a column in a schema. -/
def lookupD (s : Schema) (c : String) : Option DType :=
  (s.find? (fun p => p.1 = c)).map (fun p => p.2)

/-- Output dtype of an expression under a schema (polars' dtype resolution,
restricted to the forms the pipeline builds). -/
def exprDType (s : Schema) : Expr → DType
  | .col c => (lookupD s c).getD .floatT
  | .lit v => v.dtypeOf
  | .add a b =>
      if exprDType s a = .intT ∧ exprDType s b = .intT then .intT else .floatT
  | .div _ _ => .floatT
  | .gt _ _ => .boolT
  | .fillNan a _ => exprDType s a
  | .catOf _ => .strT
  | .parseDT _ => .datetimeT

/-- Update one schema entry: replace a present column's dtype in place,
else append the new column. -/
def updSchema : Schema → String → DType → Schema
  | [], c, t => [(c, t)]
  | p :: rest, c, t => if p.1 = c then (c, t) :: rest else p :: updSchema rest c t

/-- A materialized data frame: schema plus rows. -/
structure DataFrame where
  schema : Schema
  rows : List Row
deriving DecidableEq

/-- Rename every column of a row. -/
def renameRow (f : String → String) (r : Row) : Row :=
  r.map (fun p => (f p.1, p.2))

/-- Rename every column of a frame. -/
def renameDF (f : String → String) (df : DataFrame) : DataFrame :=
  { schema := df.schema.map (fun p => (f p.1, p.2)),
    rows := df.rows.map (renameRow f) }

/-- A lazy frame: the operation tree polars builds up without executing.
`scan` is a concrete source, `mapFrame` an opaque frame-level function
(used for the externally-supplied key extraction), and `join` an inner,
key-equality join. -/
inductive LazyFrame where
  | scan (df : DataFrame)
  | rename (f : String → String) (lf : LazyFrame)
  | mapFrame (f : DataFrame → DataFrame) (lf : LazyFrame)
  | withColumns (assigns : List (String × Expr)) (lf : LazyFrame)
  | filterRows (pred : Expr) (lf : LazyFrame)
  | join (left right : LazyFrame) (keys : List String)

/-- `with_columns` applied to one row: all expressions are evaluated
against the incoming row, then written left to right. -/
def wcRow (assigns : List (String × Expr)) (r : Row) : Row :=
  (assigns.map (fun a => (a.1, evalExpr a.2 r))).foldl
    (fun acc p => setCol acc p.1 p.2) r

/-- Does a boolean cell hold `true`? (Rows whose predicate is null or
false are dropped by a filter.) -/
def isTrueV : Value → Bool
  | .bool true => true
  | _ => false

/-- Schema after a join: left schema plus the right columns that are
neither join keys nor name clashes. -/
def joinSchema (sl sr : Schema) (keys : List String) : Schema :=
  sl ++ sr.filter (fun p => ¬ (p.1 ∈ keys ∨ p.1 ∈ sl.names))

/-- One joined row: left row plus the non-key, non-clashing right columns. -/
def joinRow (keys : List String) (lnames : List String) (a b : Row) : Row :=
  a ++ b.filter (fun p => ¬ (p.1 ∈ keys ∨ p.1 ∈ lnames))

/-- Materialize a lazy frame.  A `with_columns` or `filter` whose
expression references a column missing from the schema fails here —
and only here — with a column-not-found error. -/
def collect : LazyFrame → Except String DataFrame
  | .scan df => .ok df
  | .rename f lf => (collect lf).map (renameDF f)
  | .mapFrame f lf => (collect lf).map f
  | .withColumns assigns lf => do
      let df ← collect lf
      if ∀ a ∈ assigns, ∀ c ∈ a.2.cols, c ∈ df.schema.names then
        .ok { schema := assigns.foldl
                (fun s a => updSchema s a.1 (exprDType s a.2)) df.schema,
              rows := df.rows.map (wcRow assigns) }
      else .error "column not found"
  | .filterRows p lf => do
      let df ← collect lf
      if ∀ c ∈ p.cols, c ∈ df.schema.names then
        .ok { df with rows := df.rows.filter (fun r => isTrueV (evalExpr p r)) }
      else .error "column not found"
  | .join l r keys => do
      let dl ← collect l
      let dr ← collect r
      .ok { schema := joinSchema dl.schema dr.schema keys,
            rows := (dl.rows.map (fun a =>
              (dr.rows.filter (fun b => keys.all (fun k => getV a k = getV b k))).map
                (joinRow keys (dl.schema.names) a))).flatten }

/-- Resolve the schema of a lazy frame without touching data
(polars `collect_schema`). -/
def schemaOf : LazyFrame → Except String Schema
  | .scan df => .ok df.schema
  | .rename f lf => (schemaOf lf).map (List.map (fun p => (f p.1, p.2)))
  | .mapFrame _ lf => schemaOf lf
  | .withColumns assigns lf => do
      let s ← schemaOf lf
      if ∀ a ∈ assigns, ∀ c ∈ a.2.cols, c ∈ s.names then
        .ok (assigns.foldl (fun acc a => updSchema acc a.1 (exprDType acc a.2)) s)
      else .error "column not found"
  | .filterRows p lf => do
      let s ← schemaOf lf
      if ∀ c ∈ p.cols, c ∈ s.names then .ok s else .error "column not found"
  | .join l r keys => do
      let sl ← schemaOf l
      let sr ← schemaOf r
      .ok (joinSchema sl sr keys)

/-- Uppercase an ASCII letter. -/
def upChar (c : Char) : Char :=
  if 97 ≤ c.toNat ∧ c.toNat ≤ 122 then Char.ofNat (c.toNat - 32) else c

/-- Canonical capitalization of one column name: first letter uppercased. -/
def capName (s : String) : String :=
  ⟨match s.data with
   | [] => []
   | c :: rest => upChar c :: rest⟩

/-- Modelled from the spec: `cdh_utils._polars_capitalize` (not under
`src/`) canonicalizes column names to a standard capitalization, leaving
row count and cell content unchanged. -/
def _polars_capitalize (lf : LazyFrame) : LazyFrame :=
  .rename capName lf

/-- Parse one `key=value` segment. -/
def parseSeg (seg : List Char) : String × Value :=
  (⟨seg.takeWhile (fun c => c ≠ '=')⟩, .str ⟨(seg.dropWhile (fun c => c ≠ '=')).drop 1⟩)

/-- Split a list on a separator character. -/
def splitOnC (sep : Char) : List Char → List (List Char)
  | [] => [[]]
  | c :: rest =>
      let r := splitOnC sep rest
      if c = sep then [] :: r
      else match r with
        | [] => [[c]]
        | seg :: segs => (c :: seg) :: segs

/-- Keys encoded in one `Name` cell. -/
def rowKeys (r : Row) : List (String × Value) :=
  match getV r "Name" with
  | .str s => (splitOnC '/' s.data).map parseSeg
  | _ => []

/-- Modelled from the spec: `cdh_utils._extract_keys` (not under `src/`)
decodes the structured `Name` column into additional discrete key
columns: zero or more new columns are appended, no rows are dropped and
no existing columns are altered. -/
def _extract_keys (df : DataFrame) : DataFrame :=
  let newCols := ((df.rows.map (fun r => (rowKeys r).map (fun p => p.1))).flatten.filter
    (fun c => ¬ c ∈ df.schema.names)).dedup
  { schema := df.schema ++ newCols.map (fun c => (c, DType.strT)),
    rows := df.rows.map (fun r =>
      r ++ newCols.map (fun c =>
        (c, ((rowKeys r).find? (fun p => p.1 = c)).elim Value.null (fun p => p.2)))) }

/-- Modelled from the spec: `cdh_utils._apply_query` (not under `src/`)
restricts a dataset to the rows matching every given predicate; no
predicates means identity. -/
def _apply_query (df : LazyFrame) : Option (List Expr) → LazyFrame
  | none => df
  | some es => es.foldl (fun acc e => .filterRows e acc) df

/-- The categorization argument of `apply_predictor_categorization`:
either a precomputed expression or a zero-argument factory for one. -/
inductive CatRule where
  | expr (e : Expr)
  | factory (f : Unit → Expr)

/-- Modelled from the spec: `cdh_utils.default_predictor_categorization`
(not under `src/`), the built-in zero-argument categorization factory. -/
def default_predictor_categorization : Unit → Expr :=
  fun _ => .catOf "PredictorName"

/-- The derived success-rate expression of `_validate_model_data`:
`(pl.col("Positives") / pl.col("ResponseCount")).fill_nan(pl.lit(0))`. -/
def successRateExpr : Expr :=
  .fillNan (.div (.col "Positives") (.col "ResponseCount")) (.lit (.int 0))

/-- The fixed candidate context keys `ADMDatamart.__init__` starts from. -/
def initContextKeys : List String :=
  ["Channel", "Direction", "Issue", "Group", "Name"]

/-- `ADMDatamart._validate_model_data`: capitalize, resolve the schema,
extract keys from `Name` when requested, compute the context keys,
derive `SuccessRate`, ensure `SnapshotTime` is a datetime, and apply the
query.  The eager schema lookup `schema["SnapshotTime"]` raises (here:
returns an error) at construction when that column is absent; everything
else is deferred.  The externally-supplied key extraction is a
parameter. -/
def _validate_model_data (df? : Option LazyFrame) (query : Option (List Expr))
    (extract_pyname_keys : Bool) (extract : DataFrame → DataFrame)
    (ck : List String) : Except String (Option LazyFrame × List String) :=
  match df? with
  | none => .ok (none, ck)
  | some df0 => do
      let df := _polars_capitalize df0
      let schema ← schemaOf df
      let df := if extract_pyname_keys = true ∧ "Name" ∈ schema.names then
          LazyFrame.mapFrame extract df
        else df
      let ck := if "Treatment" ∈ schema.names then ck ++ ["Treatment"] else ck
      let ck := ck.filter (fun k => decide (k ∈ schema.names))
      let df := LazyFrame.withColumns [("SuccessRate", successRateExpr)] df
      match lookupD schema "SnapshotTime" with
      | none => .error "SnapshotTime not found"
      | some t =>
          let df := if t ≠ DType.datetimeT then
              LazyFrame.withColumns [("SnapshotTime", .parseDT "SnapshotTime")] df
            else df
          .ok (some (_apply_query df query), ck)

/-- `ADMDatamart.apply_predictor_categorization`: resolve a callable
categorization rule by invoking it once, then unconditionally write the
`PredictorCategory` column. -/
def apply_predictor_categorization (df : LazyFrame) (categorization : CatRule) :
    LazyFrame :=
  let e := match categorization with
    | .factory f => f ()
    | .expr e => e
  .withColumns [("PredictorCategory", e)] df

/-- The bin-propensity assignments of `_validate_predictor_data`. -/
def binPropensityAssigns : List (String × Expr) :=
  [("BinPropensity", .div (.col "BinPositives") (.col "BinResponseCount")),
   ("BinAdjustedPropensity",
     .div (.add (.col "BinPositives") (.lit (.float (.fin (1/2)))))
          (.add (.col "BinResponseCount") (.lit (.int 1))))]

/-- `ADMDatamart._validate_predictor_data`: capitalize, resolve the
schema, derive `BinResponseCount` when absent, derive the propensities,
and categorize predictors only when no `PredictorCategory` column is
already present. -/
def _validate_predictor_data (df? : Option LazyFrame) :
    Except String (Option LazyFrame) :=
  match df? with
  | none => .ok none
  | some df0 => do
      let df := _polars_capitalize df0
      let schema ← schemaOf df
      let df := if ¬ "BinResponseCount" ∈ schema.names then
          LazyFrame.withColumns
            [("BinResponseCount", .add (.col "BinPositives") (.col "BinNegatives"))] df
        else df
      let df := LazyFrame.withColumns binPropensityAssigns df
      let df := if ¬ "PredictorCategory" ∈ schema.names then
          apply_predictor_categorization df (.factory default_predictor_categorization)
        else df
      .ok (some df)

/-- Modelled from the spec: `Aggregates._combine_data` (not under `src/`)
joins predictor rows to model rows on the model identifier; if either
source is absent, the combined view is absent. -/
def _combine_data : Option LazyFrame → Option LazyFrame → Option LazyFrame
  | some m, some p => some (.join p m ["ModelID"])
  | _, _ => none

/-- The datamart: context keys and the three datasets. -/
structure ADMDatamart where
  context_keys : List String
  model_data : Option LazyFrame
  predictor_data : Option LazyFrame
  combined_data : Option LazyFrame

/-- `ADMDatamart.__init__`: fix the candidate context keys, validate the
model data (which also refines the context keys), validate the predictor
data, and combine. -/
def ADMDatamart.init (model_df predictor_df : Option LazyFrame)
    (query : Option (List Expr)) (extract_pyname_keys : Bool)
    (extract : DataFrame → DataFrame) : Except String ADMDatamart := do
  let (md, ck) ← _validate_model_data model_df query extract_pyname_keys extract
    initContextKeys
  let pd ← _validate_predictor_data predictor_df
  .ok { context_keys := ck, model_data := md, predictor_data := pd,
        combined_data := _combine_data md pd }

/-- The value `fill_nan(0)` of a quotient: the quotient itself unless it
is NaN, in which case exactly `0`. -/
def successRateVal (p rc : Value) : Value :=
  match p.divV rc with
  | .float .nan => .float (.fin 0)
  | v => v

/-- Is a cell value a number in the unit interval `[0, 1]`? -/
def Value.inUnitI : Value → Prop
  | .float (.fin q) => 0 ≤ q ∧ q ≤ 1
  | .int n => 0 ≤ n ∧ n ≤ 1
  | _ => False

/-- The capitalized schema of a source frame, as the pipeline sees it. -/
def capSchema (df : DataFrame) : Schema :=
  df.schema.map (fun p => (capName p.1, p.2))

/-- The expression a categorization rule resolves to: a factory is
invoked once, an expression is used as is. -/
def CatRule.resolve : CatRule → Expr
  | .factory f => f ()
  | .expr e => e

/-- A wall-clock instant as `datetime.datetime.now()` provides it. -/
structure PyDateTime where
  year : ℕ
  month : ℕ
  day : ℕ
  hour : ℕ
  minute : ℕ
  second : ℕ
  microsecond : ℕ
deriving DecidableEq

/-- The decimal digit character for `d % 10`. -/
def digitChar : ℕ → Char
  | 0 => '0'
  | 1 => '1'
  | 2 => '2'
  | 3 => '3'
  | 4 => '4'
  | 5 => '5'
  | 6 => '6'
  | 7 => '7'
  | 8 => '8'
  | _ => '9'

/-- Zero-padded fixed-width decimal rendering of a natural number. -/
def padNat (w n : ℕ) : List Char :=
  (List.range w).reverse.map (fun i => digitChar (n / 10 ^ i % 10))

/-- `datetime.now().strftime("%Y%m%dT%H%M%S.%f")[:-3]`: the compact
timestamp with the microseconds truncated to milliseconds. -/
def strftimeCompact (t : PyDateTime) : String :=
  ⟨padNat 4 t.year ++ padNat 2 t.month ++ padNat 2 t.day ++ ['T'] ++
    padNat 2 t.hour ++ padNat 2 t.minute ++ padNat 2 t.second ++ ['.'] ++
    (padNat 6 t.microsecond).take 3⟩

/-- Does a string have the shape `YYYYMMDDThhmmss.mmm`? -/
def tsShape (s : String) : Bool :=
  match s.data with
  | [y1, y2, y3, y4, mo1, mo2, d1, d2, t, h1, h2, mi1, mi2, s1, s2, dot, f1, f2, f3] =>
      [y1, y2, y3, y4, mo1, mo2, d1, d2, h1, h2, mi1, mi2, s1, s2, f1, f2, f3].all
        Char.isDigit && t == 'T' && dot == '.'
  | _ => false

/-- Modelled from the spec: `pega_io.cache_to_file` (not under `src/`)
persists one dataset under the given directory and name and returns its
location. -/
def cache_to_file (path name : String) : String :=
  path ++ "/" ++ name

/-- `ADMDatamart.save_data`: generate one shared compact timestamp, write
whichever datasets are present under `cached_model_data_<ts>` /
`cached_predictor_data_<ts>`, and return the locations (absent dataset,
absent location).  The returned list records the writes performed. -/
def save_data (dm : ADMDatamart) (path : String) (now : PyDateTime) :
    (Option String × Option String) × List (String × LazyFrame) :=
  let time := strftimeCompact now
  let m := match dm.model_data with
    | some d => (some (cache_to_file path ("cached_model_data_" ++ time)),
        [("cached_model_data_" ++ time, d)])
    | none => ((none : Option String), ([] : List (String × LazyFrame)))
  let p := match dm.predictor_data with
    | some d => (some (cache_to_file path ("cached_predictor_data_" ++ time)),
        [("cached_predictor_data_" ++ time, d)])
    | none => ((none : Option String), ([] : List (String × LazyFrame)))
  ((m.1, p.1), m.2 ++ p.2)

/-! ### Basic lemmas about rows and materialization -/

theorem getV_setCol_self (r : Row) (c : String) (v : Value) :
    getV (setCol r c v) c = v := by
  induction r with
  | nil => simp [setCol, getV]
  | cons p rest ih =>
      by_cases h : p.1 = c
      · simp [setCol, h, getV]
      · simp [setCol, h, getV, ih]

theorem getV_setCol_ne (r : Row) (c c' : String) (v : Value) (h : c' ≠ c) :
    getV (setCol r c v) c' = getV r c' := by
  have hcc : ¬ c = c' := fun hh => h hh.symm
  induction r with
  | nil => simp [setCol, getV, hcc]
  | cons p rest ih =>
      by_cases hp : p.1 = c
      · have hpc : ¬ p.1 = c' := fun hh => hcc (hp.symm.trans hh)
        simp [setCol, hp, getV, hcc, hpc]
      · simp only [setCol, if_neg hp, getV]
        by_cases hc : p.1 = c'
        · simp [hc]
        · simp [hc, ih]

theorem wcRow_single (n : String) (e : Expr) (r : Row) :
    wcRow [(n, e)] r = setCol r n (evalExpr e r) := rfl

theorem wcRow_pair (n₁ n₂ : String) (e₁ e₂ : Expr) (r : Row) :
    wcRow [(n₁, e₁), (n₂, e₂)] r =
      setCol (setCol r n₁ (evalExpr e₁ r)) n₂ (evalExpr e₂ r) := rfl

/-- Materializing a `with_columns` node: the input materializes and the
rows are the input rows with the assignments written. -/
theorem collect_withColumns_ok {assigns : List (String × Expr)} {lf : LazyFrame}
    {out : DataFrame} (h : collect (.withColumns assigns lf) = .ok out) :
    ∃ out₀, collect lf = .ok out₀ ∧ out.rows = out₀.rows.map (wcRow assigns) := by
  unfold collect at h
  cases hc : collect lf with
  | error e => rw [hc] at h; simp [Bind.bind, Except.bind] at h
  | ok df =>
      rw [hc] at h
      simp only [Bind.bind, Except.bind] at h
      split at h
      · exact ⟨df, rfl, by cases h; rfl⟩
      · cases h

/-- Materializing a filter node: the input materializes and the rows are
a sublist of the input rows. -/
theorem collect_filterRows_ok {p : Expr} {lf : LazyFrame} {out : DataFrame}
    (h : collect (.filterRows p lf) = .ok out) :
    ∃ out₀, collect lf = .ok out₀ ∧ ∀ r ∈ out.rows, r ∈ out₀.rows := by
  unfold collect at h
  cases hc : collect lf with
  | error e => rw [hc] at h; simp [Bind.bind, Except.bind] at h
  | ok df =>
      rw [hc] at h
      simp only [Bind.bind, Except.bind] at h
      split at h
      · refine ⟨df, rfl, ?_⟩
        cases h
        intro r hr
        exact List.mem_of_mem_filter hr
      · cases h

/-- Materializing an applied query: the unfiltered frame materializes and
every surviving row came from it. -/
theorem collect_applyQuery_ok {lf : LazyFrame} {q : Option (List Expr)}
    {out : DataFrame} (h : collect (_apply_query lf q) = .ok out) :
    ∃ out₀, collect lf = .ok out₀ ∧ ∀ r ∈ out.rows, r ∈ out₀.rows := by
  match q with
  | none => exact ⟨out, h, fun r hr => hr⟩
  | some es =>
      induction es generalizing lf with
      | nil => exact ⟨out, h, fun r hr => hr⟩
      | cons e es ih =>
          have h' : collect (_apply_query (.filterRows e lf) (some es)) = .ok out := h
          obtain ⟨out₁, h₁, hsub₁⟩ := ih h'
          obtain ⟨out₀, h₀, hsub₀⟩ := collect_filterRows_ok h₁
          exact ⟨out₀, h₀, fun r hr => hsub₀ r (hsub₁ r hr)⟩

/-- Destructuring a successful construction into its two validation
steps and the combination. -/
theorem init_ok_elim {md pd : Option LazyFrame} {q : Option (List Expr)}
    {epk : Bool} {ex : DataFrame → DataFrame} {dm : ADMDatamart}
    (h : ADMDatamart.init md pd q epk ex = .ok dm) :
    ∃ m ck p, _validate_model_data md q epk ex initContextKeys = .ok (m, ck) ∧
      _validate_predictor_data pd = .ok p ∧
      dm = ⟨ck, m, p, _combine_data m p⟩ := by
  unfold ADMDatamart.init at h
  cases hv : _validate_model_data md q epk ex initContextKeys with
  | error e => rw [hv] at h; simp [Bind.bind, Except.bind] at h
  | ok mc =>
      obtain ⟨m, ck⟩ := mc
      rw [hv] at h
      cases hp : _validate_predictor_data pd with
      | error e => rw [hp] at h; simp [Bind.bind, Except.bind] at h
      | ok p =>
          rw [hp] at h
          simp only [Bind.bind, Except.bind, pure, Except.pure] at h
          exact ⟨m, ck, p, rfl, rfl, (Except.ok.injEq _ _ ▸ h).symm⟩

/-- Destructuring a successful model-data validation on a present input:
the capitalized schema resolved, `SnapshotTime` was found in it, the
context keys are the `Treatment`-extended candidates filtered to the
schema, and the resulting frame is the capitalize / extract /
success-rate / parse / query chain. -/
theorem validate_model_some_ok {df0 : LazyFrame} {q : Option (List Expr)}
    {epk : Bool} {ex : DataFrame → DataFrame} {ck : List String}
    {m : Option LazyFrame} {ck' : List String}
    (h : _validate_model_data (some df0) q epk ex ck = .ok (m, ck')) :
    ∃ schema t,
      schemaOf (_polars_capitalize df0) = .ok schema ∧
      lookupD schema "SnapshotTime" = some t ∧
      ck' = (if "Treatment" ∈ schema.names then ck ++ ["Treatment"] else ck).filter
              (fun k => decide (k ∈ schema.names)) ∧
      m = some (_apply_query
            (if t ≠ DType.datetimeT then
              LazyFrame.withColumns [("SnapshotTime", .parseDT "SnapshotTime")]
                (LazyFrame.withColumns [("SuccessRate", successRateExpr)]
                  (if epk = true ∧ "Name" ∈ schema.names then
                    LazyFrame.mapFrame ex (_polars_capitalize df0)
                  else _polars_capitalize df0))
            else
              LazyFrame.withColumns [("SuccessRate", successRateExpr)]
                (if epk = true ∧ "Name" ∈ schema.names then
                  LazyFrame.mapFrame ex (_polars_capitalize df0)
                else _polars_capitalize df0)) q) := by
  simp only [_validate_model_data] at h
  cases hs : schemaOf (_polars_capitalize df0) with
  | error e => rw [hs] at h; simp [Bind.bind, Except.bind] at h
  | ok schema =>
      rw [hs] at h
      simp only [Bind.bind, Except.bind] at h
      refine ⟨schema, ?_⟩
      cases hl : lookupD schema "SnapshotTime" with
      | none => rw [hl] at h; cases h
      | some t =>
          rw [hl] at h
          simp only [Except.ok.injEq, Prod.mk.injEq] at h
          exact ⟨t, rfl, rfl, h.2.symm, h.1.symm⟩

/-- Writing the success-rate column into one row establishes the
success-rate relation on that row. -/
theorem srOK_row (r0 : Row) :
    getV (wcRow [("SuccessRate", successRateExpr)] r0) "SuccessRate" =
      successRateVal (getV (wcRow [("SuccessRate", successRateExpr)] r0) "Positives")
        (getV (wcRow [("SuccessRate", successRateExpr)] r0) "ResponseCount") := by
  rw [wcRow_single, getV_setCol_self,
    getV_setCol_ne _ _ _ _ (by decide), getV_setCol_ne _ _ _ _ (by decide)]
  cases hd : (getV r0 "Positives").divV (getV r0 "ResponseCount") with
  | null => simp [evalExpr, successRateExpr, successRateVal, hd]
  | int n => simp [evalExpr, successRateExpr, successRateVal, hd]
  | str s => simp [evalExpr, successRateExpr, successRateVal, hd]
  | bool b => simp [evalExpr, successRateExpr, successRateVal, hd]
  | dt t => simp [evalExpr, successRateExpr, successRateVal, hd]
  | float f =>
      cases f with
      | nan => simp [evalExpr, successRateExpr, successRateVal, hd, Value.castF]
      | inf => simp [evalExpr, successRateExpr, successRateVal, hd]
      | negInf => simp [evalExpr, successRateExpr, successRateVal, hd]
      | fin q => simp [evalExpr, successRateExpr, successRateVal, hd]

/-- Every row of the materialized model dataset of a constructed
datamart satisfies the success-rate relation: `SuccessRate` is the
quotient of that row's `Positives` and `ResponseCount` cells, with a NaN
quotient replaced by exactly `0`. -/
theorem model_rows_srOK {df0 : LazyFrame} {pd : Option LazyFrame}
    {q : Option (List Expr)} {epk : Bool} {ex : DataFrame → DataFrame}
    {dm : ADMDatamart} {lf : LazyFrame} {out : DataFrame}
    (hinit : ADMDatamart.init (some df0) pd q epk ex = .ok dm)
    (hmd : dm.model_data = some lf)
    (hcol : collect lf = .ok out) :
    ∀ r ∈ out.rows,
      getV r "SuccessRate" =
        successRateVal (getV r "Positives") (getV r "ResponseCount") := by
  obtain ⟨m, ck, p, hv, hp, hdm⟩ := init_ok_elim hinit
  rw [hdm] at hmd
  replace hmd : m = some lf := hmd
  obtain ⟨schema, t, hs, hl, hck, hm⟩ := validate_model_some_ok hv
  rw [hmd] at hm
  have hlf := Option.some.inj hm
  subst hlf
  obtain ⟨out1, hc1, hsub⟩ := collect_applyQuery_ok hcol
  intro r hr
  have hr1 := hsub r hr
  by_cases ht : t ≠ DType.datetimeT
  · rw [if_pos ht] at hc1
    obtain ⟨out2, hc2, hrows⟩ := collect_withColumns_ok hc1
    rw [hrows] at hr1
    obtain ⟨r2, hr2, rfl⟩ := List.mem_map.mp hr1
    rw [wcRow_single,
      getV_setCol_ne _ "SnapshotTime" "SuccessRate" _ (by decide),
      getV_setCol_ne _ "SnapshotTime" "Positives" _ (by decide),
      getV_setCol_ne _ "SnapshotTime" "ResponseCount" _ (by decide)]
    obtain ⟨out3, hc3, hrows2⟩ := collect_withColumns_ok hc2
    rw [hrows2] at hr2
    obtain ⟨r3, hr3, rfl⟩ := List.mem_map.mp hr2
    exact srOK_row r3
  · rw [if_neg ht] at hc1
    obtain ⟨out2, hc2, hrows⟩ := collect_withColumns_ok hc1
    rw [hrows] at hr1
    obtain ⟨r2, hr2, rfl⟩ := List.mem_map.mp hr1
    exact srOK_row r2

/-! ### C1: the success-rate column -/

/-- C1 (counterexample): the claim "SuccessRate always lies in
[0,1] ∪ {0} for every row of the validated model dataset" is false on
the code: a model row with `Positives = 5, ResponseCount = 2` validates
and materializes successfully with `SuccessRate = 5/2 ∉ [0,1]`. -/
theorem C1_counterexample :
    (ADMDatamart.init (some (.scan
        { schema := [("Positives", .intT), ("ResponseCount", .intT),
            ("SnapshotTime", .datetimeT)],
          rows := [[("Positives", .int 5), ("ResponseCount", .int 2),
            ("SnapshotTime", .dt 0)]] }))
        none none true _extract_keys).map
      (fun dm => dm.model_data.map (fun lf => (collect lf).map
        (fun out => out.rows.map (fun r => getV r "SuccessRate")))) =
      .ok (some (.ok [.float (.fin (5/2))])) ∧
    ¬ Value.inUnitI (.float (.fin (5/2))) := by
  refine ⟨rfl, ?_⟩
  simp only [Value.inUnitI]
  norm_num

/-- C1 (amended): for every row of the validated model dataset,
`SuccessRate` equals `Positives / ResponseCount` with a NaN result
(including `0/0`) replaced by exactly `0`; and it lies in `[0,1]`
whenever the row's counts satisfy `0 ≤ Positives ≤ ResponseCount`
(without that bound the quotient can leave `[0,1]`). -/
theorem C1_success_rate {df0 : LazyFrame} {pd : Option LazyFrame}
    {q : Option (List Expr)} {epk : Bool} {ex : DataFrame → DataFrame}
    {dm : ADMDatamart} {lf : LazyFrame} {out : DataFrame}
    (r : Row) {p rc : ℤ}
    (hinit : ADMDatamart.init (some df0) pd q epk ex = .ok dm)
    (hmd : dm.model_data = some lf)
    (hcol : collect lf = .ok out)
    (hr : r ∈ out.rows)
    (hP : getV r "Positives" = .int p)
    (hR : getV r "ResponseCount" = .int rc)
    (h0 : 0 ≤ p) (hpr : p ≤ rc) :
    getV r "SuccessRate" =
      (if rc = 0 then Value.float (.fin 0) else .float (.fin ((p : ℚ) / (rc : ℚ)))) ∧
    Value.inUnitI (getV r "SuccessRate") := by
  have hrel := model_rows_srOK hinit hmd hcol r hr
  rw [hP, hR] at hrel
  by_cases hrc : rc = 0
  · subst hrc
    have hp0 : p = 0 := le_antisymm hpr h0
    subst hp0
    have hval : successRateVal (.int 0) (.int 0) = .float (.fin 0) := by
      simp [successRateVal, Value.divV, Value.toFloatV, FloatV.div]
    rw [hval] at hrel
    rw [hrel]
    exact ⟨by simp, by simp [Value.inUnitI]⟩
  · have hrcQ : ((rc : ℚ)) ≠ 0 := Int.cast_ne_zero.mpr hrc
    have hval : successRateVal (.int p) (.int rc) =
        .float (.fin ((p : ℚ) / (rc : ℚ))) := by
      simp [successRateVal, Value.divV, Value.toFloatV, FloatV.div, hrcQ]
    rw [hval] at hrel
    rw [hrel, if_neg hrc]
    have hrcpos : (0 : ℚ) < (rc : ℚ) := by
      have : 0 < rc := lt_of_le_of_ne (h0.trans hpr) (Ne.symm hrc)
      exact_mod_cast this
    have hpq : (0 : ℚ) ≤ (p : ℚ) := by exact_mod_cast h0
    have hprq : (p : ℚ) ≤ (rc : ℚ) := by exact_mod_cast hpr
    refine ⟨rfl, ?_⟩
    simp only [Value.inUnitI]
    exact ⟨div_nonneg hpq hrcpos.le, (div_le_one hrcpos).mpr hprq⟩

/-- C1 (witness): the amended theorem at the spec's own scenario
`Positives = 5, ResponseCount = 20`, giving `SuccessRate = 5/20`. -/
theorem C1_success_rate_witness :
    getV [("Positives", .int 5), ("ResponseCount", .int 20), ("SnapshotTime", .dt 0),
        ("SuccessRate", .float (.fin (5/20)))] "SuccessRate" =
      (if (20 : ℤ) = 0 then Value.float (.fin 0) else .float (.fin ((5 : ℚ) / 20))) ∧
    Value.inUnitI (getV [("Positives", .int 5), ("ResponseCount", .int 20),
        ("SnapshotTime", .dt 0), ("SuccessRate", .float (.fin (5/20)))] "SuccessRate") := by
  have h1 : ADMDatamart.init (some (.scan
      { schema := [("Positives", .intT), ("ResponseCount", .intT),
          ("SnapshotTime", .datetimeT)],
        rows := [[("Positives", .int 5), ("ResponseCount", .int 20),
          ("SnapshotTime", .dt 0)]] })) none none true _extract_keys =
      .ok ⟨[], some (.withColumns [("SuccessRate", successRateExpr)]
        (.rename capName (.scan
          { schema := [("Positives", .intT), ("ResponseCount", .intT),
              ("SnapshotTime", .datetimeT)],
            rows := [[("Positives", .int 5), ("ResponseCount", .int 20),
              ("SnapshotTime", .dt 0)]] }))), none, none⟩ := rfl
  have h2 : (⟨[], some (.withColumns [("SuccessRate", successRateExpr)]
      (.rename capName (.scan
        { schema := [("Positives", .intT), ("ResponseCount", .intT),
            ("SnapshotTime", .datetimeT)],
          rows := [[("Positives", .int 5), ("ResponseCount", .int 20),
            ("SnapshotTime", .dt 0)]] }))), none, none⟩ : ADMDatamart).model_data =
      some (.withColumns [("SuccessRate", successRateExpr)]
        (.rename capName (.scan
          { schema := [("Positives", .intT), ("ResponseCount", .intT),
              ("SnapshotTime", .datetimeT)],
            rows := [[("Positives", .int 5), ("ResponseCount", .int 20),
              ("SnapshotTime", .dt 0)]] }))) := rfl
  have h3 : collect (.withColumns [("SuccessRate", successRateExpr)]
      (.rename capName (.scan
        { schema := [("Positives", .intT), ("ResponseCount", .intT),
            ("SnapshotTime", .datetimeT)],
          rows := [[("Positives", .int 5), ("ResponseCount", .int 20),
            ("SnapshotTime", .dt 0)]] }))) =
      .ok { schema := [("Positives", .intT), ("ResponseCount", .intT),
              ("SnapshotTime", .datetimeT), ("SuccessRate", .floatT)],
            rows := [[("Positives", .int 5), ("ResponseCount", .int 20),
              ("SnapshotTime", .dt 0), ("SuccessRate", .float (.fin (5/20)))]] } := rfl
  exact C1_success_rate _ h1 h2 h3 (List.mem_singleton.mpr rfl) rfl rfl
    (by decide) (by decide)

/-! ### C9: null counts propagate as null -/

/-- C9: for every row of the validated model dataset in which
`Positives` or `ResponseCount` is null, the derived `SuccessRate` is
null — the NaN guard replaces only NaN, never null. -/
theorem C9_null_propagates {df0 : LazyFrame} {pd : Option LazyFrame}
    {q : Option (List Expr)} {epk : Bool} {ex : DataFrame → DataFrame}
    {dm : ADMDatamart} {lf : LazyFrame} {out : DataFrame}
    (r : Row)
    (hinit : ADMDatamart.init (some df0) pd q epk ex = .ok dm)
    (hmd : dm.model_data = some lf)
    (hcol : collect lf = .ok out)
    (hr : r ∈ out.rows)
    (hnull : getV r "Positives" = .null ∨ getV r "ResponseCount" = .null) :
    getV r "SuccessRate" = .null := by
  have hrel := model_rows_srOK hinit hmd hcol r hr
  rcases hnull with h | h
  · rw [h] at hrel
    simpa [successRateVal, Value.divV] using hrel
  · rw [h] at hrel
    cases hx : getV r "Positives" <;> rw [hx] at hrel <;>
      simpa [successRateVal, Value.divV] using hrel

/-- C9 (witness): a model row with a null `Positives` cell materializes
with a null `SuccessRate`. -/
theorem C9_null_propagates_witness :
    getV [("Positives", Value.null), ("ResponseCount", .int 7), ("SnapshotTime", .dt 0),
        ("SuccessRate", Value.null)] "SuccessRate" = .null := by
  have h1 : ADMDatamart.init (some (.scan
      { schema := [("Positives", .intT), ("ResponseCount", .intT),
          ("SnapshotTime", .datetimeT)],
        rows := [[("Positives", Value.null), ("ResponseCount", .int 7),
          ("SnapshotTime", .dt 0)]] })) none none true _extract_keys =
      .ok ⟨[], some (.withColumns [("SuccessRate", successRateExpr)]
        (.rename capName (.scan
          { schema := [("Positives", .intT), ("ResponseCount", .intT),
              ("SnapshotTime", .datetimeT)],
            rows := [[("Positives", Value.null), ("ResponseCount", .int 7),
              ("SnapshotTime", .dt 0)]] }))), none, none⟩ := rfl
  have h3 : collect (.withColumns [("SuccessRate", successRateExpr)]
      (.rename capName (.scan
        { schema := [("Positives", .intT), ("ResponseCount", .intT),
            ("SnapshotTime", .datetimeT)],
          rows := [[("Positives", Value.null), ("ResponseCount", .int 7),
            ("SnapshotTime", .dt 0)]] }))) =
      .ok { schema := [("Positives", .intT), ("ResponseCount", .intT),
              ("SnapshotTime", .datetimeT), ("SuccessRate", .floatT)],
            rows := [[("Positives", Value.null), ("ResponseCount", .int 7),
              ("SnapshotTime", .dt 0), ("SuccessRate", Value.null)]] } := rfl
  exact C9_null_propagates _ h1 rfl h3 (List.mem_singleton.mpr rfl) (Or.inl rfl)

/-! ### C2: the adjusted propensity -/

/-- Destructuring a successful predictor-data validation on a present
input: the capitalized schema resolved and the result is the
capitalize / derive-count / propensities / categorize chain. -/
theorem validate_predictor_some_ok {df0 : LazyFrame} {m : Option LazyFrame}
    (h : _validate_predictor_data (some df0) = .ok m) :
    ∃ schema,
      schemaOf (_polars_capitalize df0) = .ok schema ∧
      m = some (if ¬ "PredictorCategory" ∈ schema.names then
          apply_predictor_categorization
            (LazyFrame.withColumns binPropensityAssigns
              (if ¬ "BinResponseCount" ∈ schema.names then
                LazyFrame.withColumns
                  [("BinResponseCount", .add (.col "BinPositives") (.col "BinNegatives"))]
                  (_polars_capitalize df0)
              else _polars_capitalize df0))
            (.factory default_predictor_categorization)
        else
          LazyFrame.withColumns binPropensityAssigns
            (if ¬ "BinResponseCount" ∈ schema.names then
              LazyFrame.withColumns
                [("BinResponseCount", .add (.col "BinPositives") (.col "BinNegatives"))]
                (_polars_capitalize df0)
            else _polars_capitalize df0)) := by
  simp only [_validate_predictor_data] at h
  cases hs : schemaOf (_polars_capitalize df0) with
  | error e => rw [hs] at h; simp [Bind.bind, Except.bind] at h
  | ok schema =>
      rw [hs] at h
      simp only [Bind.bind, Except.bind, Except.ok.injEq] at h
      refine ⟨schema, rfl, ?_⟩
      rw [← h]

/-- Writing the two propensity columns preserves the count cells and
establishes the adjusted-propensity relation. -/
theorem binProps_row (r1 : Row) :
    getV (wcRow binPropensityAssigns r1) "BinPositives" = getV r1 "BinPositives" ∧
    getV (wcRow binPropensityAssigns r1) "BinNegatives" = getV r1 "BinNegatives" ∧
    getV (wcRow binPropensityAssigns r1) "BinResponseCount" = getV r1 "BinResponseCount" ∧
    getV (wcRow binPropensityAssigns r1) "BinAdjustedPropensity" =
      ((getV r1 "BinPositives").addV (.float (.fin (1/2)))).divV
        ((getV r1 "BinResponseCount").addV (.int 1)) := by
  have hw : wcRow binPropensityAssigns r1 =
      setCol (setCol r1 "BinPropensity"
          (evalExpr (.div (.col "BinPositives") (.col "BinResponseCount")) r1))
        "BinAdjustedPropensity"
        (evalExpr (.div (.add (.col "BinPositives") (.lit (.float (.fin (1/2)))))
          (.add (.col "BinResponseCount") (.lit (.int 1)))) r1) := rfl
  rw [hw]
  refine ⟨?_, ?_, ?_, ?_⟩
  · rw [getV_setCol_ne _ "BinAdjustedPropensity" "BinPositives" _ (by decide),
      getV_setCol_ne _ "BinPropensity" "BinPositives" _ (by decide)]
  · rw [getV_setCol_ne _ "BinAdjustedPropensity" "BinNegatives" _ (by decide),
      getV_setCol_ne _ "BinPropensity" "BinNegatives" _ (by decide)]
  · rw [getV_setCol_ne _ "BinAdjustedPropensity" "BinResponseCount" _ (by decide),
      getV_setCol_ne _ "BinPropensity" "BinResponseCount" _ (by decide)]
  · rw [getV_setCol_self]
    rfl

/-- Every row of the materialized predictor dataset (for an input that
lacked `BinResponseCount`) satisfies: the derived count is the sum of
the positives and negatives, and the adjusted propensity is the Laplace
quotient over those cells. -/
theorem pred_rows_rel {df0 : LazyFrame} {m : Option LazyFrame} {lf : LazyFrame}
    {out : DataFrame} {S : Schema}
    (h : _validate_predictor_data (some df0) = .ok m)
    (hm : m = some lf)
    (hS : schemaOf (_polars_capitalize df0) = .ok S)
    (hrcS : ¬ "BinResponseCount" ∈ S.names)
    (hcol : collect lf = .ok out) :
    ∀ r ∈ out.rows,
      getV r "BinResponseCount" = (getV r "BinPositives").addV (getV r "BinNegatives") ∧
      getV r "BinAdjustedPropensity" =
        ((getV r "BinPositives").addV (.float (.fin (1/2)))).divV
          ((getV r "BinResponseCount").addV (.int 1)) := by
  obtain ⟨S', hS', hm'⟩ := validate_predictor_some_ok h
  rw [hS] at hS'
  have hSS : S = S' := Except.ok.inj hS'
  subst hSS
  rw [hm] at hm'
  have hlf := Option.some.inj hm'
  -- split on whether categorization was applied
  by_cases hpc : "PredictorCategory" ∈ S.names
  · rw [if_neg (by simpa using hpc), if_pos hrcS] at hlf
    subst hlf
    obtain ⟨out1, hc1, hrows1⟩ := collect_withColumns_ok hcol
    intro r hr
    rw [hrows1] at hr
    obtain ⟨r1, hr1, rfl⟩ := List.mem_map.mp hr
    obtain ⟨hP, hN, hRC, hAdj⟩ := binProps_row r1
    obtain ⟨out0, hc0, hrows0⟩ := collect_withColumns_ok hc1
    rw [hrows0] at hr1
    obtain ⟨r0, hr0, rfl⟩ := List.mem_map.mp hr1
    rw [wcRow_single] at hP hN hRC hAdj ⊢
    refine ⟨?_, ?_⟩
    · rw [hRC, hP, hN, getV_setCol_self,
        getV_setCol_ne _ _ _ _ (by decide), getV_setCol_ne _ _ _ _ (by decide)]
      rfl
    · rw [hAdj, hP, hRC, getV_setCol_self, getV_setCol_ne _ _ _ _ (by decide)]
  · rw [if_pos (by simpa using hpc), if_pos hrcS] at hlf
    subst hlf
    simp only [apply_predictor_categorization] at hcol
    obtain ⟨out2, hc2, hrows2⟩ := collect_withColumns_ok hcol
    intro r hr
    rw [hrows2] at hr
    obtain ⟨r2, hr2, rfl⟩ := List.mem_map.mp hr
    rw [wcRow_single]
    rw [getV_setCol_ne _ _ _ _ (by decide), getV_setCol_ne _ _ _ _ (by decide),
      getV_setCol_ne _ _ _ _ (by decide), getV_setCol_ne _ _ _ _ (by decide)]
    obtain ⟨out1, hc1, hrows1⟩ := collect_withColumns_ok hc2
    rw [hrows1] at hr2
    obtain ⟨r1, hr1, rfl⟩ := List.mem_map.mp hr2
    obtain ⟨hP, hN, hRC, hAdj⟩ := binProps_row r1
    obtain ⟨out0, hc0, hrows0⟩ := collect_withColumns_ok hc1
    rw [hrows0] at hr1
    obtain ⟨r0, hr0, rfl⟩ := List.mem_map.mp hr1
    rw [wcRow_single] at hP hN hRC hAdj ⊢
    refine ⟨?_, ?_⟩
    · rw [hRC, hP, hN, getV_setCol_self,
        getV_setCol_ne _ _ _ _ (by decide), getV_setCol_ne _ _ _ _ (by decide)]
      rfl
    · rw [hAdj, hP, hRC, getV_setCol_self, getV_setCol_ne _ _ _ _ (by decide)]

/-- C2: for every predictor row with non-negative integer
`BinPositives = p` and `BinNegatives = n` of an input without a
`BinResponseCount` column, the derived `BinResponseCount` is `p + n` and
`BinAdjustedPropensity` equals `(p + 0.5) / (p + n + 1)`, a value
strictly between `0` and `1`. -/
theorem C2_adjusted_propensity {df0 : DataFrame} {m : Option LazyFrame}
    {lf : LazyFrame} {out : DataFrame} (r : Row) {p n : ℤ}
    (hrcS : ¬ "BinResponseCount" ∈ (capSchema df0).names)
    (h : _validate_predictor_data (some (.scan df0)) = .ok m)
    (hm : m = some lf)
    (hcol : collect lf = .ok out)
    (hr : r ∈ out.rows)
    (hP : getV r "BinPositives" = .int p)
    (hN : getV r "BinNegatives" = .int n)
    (hp0 : 0 ≤ p) (hn0 : 0 ≤ n) :
    getV r "BinResponseCount" = .int (p + n) ∧
    ∃ qv : ℚ, getV r "BinAdjustedPropensity" = .float (.fin qv) ∧
      qv = ((p : ℚ) + 1/2) / ((p : ℚ) + (n : ℚ) + 1) ∧ 0 < qv ∧ qv < 1 := by
  have hS : schemaOf (_polars_capitalize (.scan df0)) = .ok (capSchema df0) := rfl
  obtain ⟨hRC, hAdj⟩ := pred_rows_rel h hm hS hrcS hcol r hr
  rw [hP, hN] at hRC
  have hRCval : getV r "BinResponseCount" = .int (p + n) := by
    rw [hRC]; rfl
  refine ⟨hRCval, ?_⟩
  rw [hP, hRCval] at hAdj
  have hnum : (Value.int p).addV (.float (.fin (1/2))) =
      .float (.fin ((p : ℚ) + 1/2)) := rfl
  have hden : (Value.int (p + n)).addV (.int 1) = .int (p + n + 1) := rfl
  rw [hnum, hden] at hAdj
  have hpq : (0 : ℚ) ≤ (p : ℚ) := by exact_mod_cast hp0
  have hnq : (0 : ℚ) ≤ (n : ℚ) := by exact_mod_cast hn0
  have hdpos : (0 : ℚ) < (p : ℚ) + (n : ℚ) + 1 := by linarith
  have hdivV : (Value.float (.fin ((p : ℚ) + 1/2))).divV (.int (p + n + 1)) =
      .float (.fin (((p : ℚ) + 1/2) / ((p : ℚ) + (n : ℚ) + 1))) := by
    simp [Value.divV, Value.toFloatV, FloatV.div, hdpos.ne']
  rw [hdivV] at hAdj
  refine ⟨((p : ℚ) + 1/2) / ((p : ℚ) + (n : ℚ) + 1), hAdj, rfl, ?_, ?_⟩
  · exact div_pos (by linarith) hdpos
  · rw [div_lt_one hdpos]
    linarith

/-- C2 (witness): the spec's own scenario — `BinPositives = 0`,
`BinNegatives = 0`, no input `BinResponseCount` — derives
`BinResponseCount = 0` and `BinAdjustedPropensity = 0.5/1 = 0.5`. -/
theorem C2_adjusted_propensity_witness :
    getV [("BinPositives", .int 0), ("BinNegatives", .int 0),
        ("PredictorName", .str "Age"), ("BinResponseCount", .int 0),
        ("BinPropensity", .float .nan),
        ("BinAdjustedPropensity", .float (.fin ((0 + 1/2) / 1))),
        ("PredictorCategory", .str "Primary")] "BinResponseCount" = .int (0 + 0) ∧
    ∃ qv : ℚ, getV [("BinPositives", .int 0), ("BinNegatives", .int 0),
        ("PredictorName", .str "Age"), ("BinResponseCount", .int 0),
        ("BinPropensity", .float .nan),
        ("BinAdjustedPropensity", .float (.fin ((0 + 1/2) / 1))),
        ("PredictorCategory", .str "Primary")] "BinAdjustedPropensity" =
          .float (.fin qv) ∧
      qv = ((0 : ℚ) + 1/2) / ((0 : ℚ) + (0 : ℚ) + 1) ∧ 0 < qv ∧ qv < 1 := by
  have h : _validate_predictor_data (some (.scan
      { schema := [("BinPositives", .intT), ("BinNegatives", .intT),
          ("PredictorName", .strT)],
        rows := [[("BinPositives", .int 0), ("BinNegatives", .int 0),
          ("PredictorName", .str "Age")]] })) =
      .ok (some (.withColumns [("PredictorCategory", .catOf "PredictorName")]
        (.withColumns binPropensityAssigns
          (.withColumns [("BinResponseCount",
              .add (.col "BinPositives") (.col "BinNegatives"))]
            (.rename capName (.scan
              { schema := [("BinPositives", .intT), ("BinNegatives", .intT),
                  ("PredictorName", .strT)],
                rows := [[("BinPositives", .int 0), ("BinNegatives", .int 0),
                  ("PredictorName", .str "Age")]] })))))) := rfl
  have hcol : collect (.withColumns [("PredictorCategory", .catOf "PredictorName")]
      (.withColumns binPropensityAssigns
        (.withColumns [("BinResponseCount",
            .add (.col "BinPositives") (.col "BinNegatives"))]
          (.rename capName (.scan
            { schema := [("BinPositives", .intT), ("BinNegatives", .intT),
                ("PredictorName", .strT)],
              rows := [[("BinPositives", .int 0), ("BinNegatives", .int 0),
                ("PredictorName", .str "Age")]] }))))) =
      .ok { schema := [("BinPositives", .intT), ("BinNegatives", .intT),
              ("PredictorName", .strT), ("BinResponseCount", .intT),
              ("BinPropensity", .floatT), ("BinAdjustedPropensity", .floatT),
              ("PredictorCategory", .strT)],
            rows := [[("BinPositives", .int 0), ("BinNegatives", .int 0),
              ("PredictorName", .str "Age"), ("BinResponseCount", .int 0),
              ("BinPropensity", .float .nan),
              ("BinAdjustedPropensity", .float (.fin ((0 + 1/2) / 1))),
              ("PredictorCategory", .str "Primary")]] } := rfl
  exact C2_adjusted_propensity _ (by decide) h rfl hcol
    (List.mem_singleton.mpr rfl) rfl rfl (by decide) (by decide)

/-! ### C3 and C10: the context keys -/

/-- C3: with a present model dataset, the context keys are exactly the
six candidates `[Channel, Direction, Issue, Group, Name, Treatment]`
filtered to those present in the (capitalized) model schema — hence a
subset of the candidates in candidate order, with `Treatment` included
iff the schema contained it; with an absent model dataset they stay the
unfiltered five-element candidate list. -/
theorem C3_context_keys :
    (∀ (df0 : DataFrame) (pd : Option LazyFrame) (q : Option (List Expr))
      (epk : Bool) (ex : DataFrame → DataFrame) (dm : ADMDatamart),
      ADMDatamart.init (some (.scan df0)) pd q epk ex = .ok dm →
      dm.context_keys =
        ["Channel", "Direction", "Issue", "Group", "Name", "Treatment"].filter
          (fun k => decide (k ∈ (capSchema df0).names)) ∧
      dm.context_keys.Sublist
        ["Channel", "Direction", "Issue", "Group", "Name", "Treatment"] ∧
      ("Treatment" ∈ dm.context_keys ↔ "Treatment" ∈ (capSchema df0).names)) ∧
    (∀ (pd : Option LazyFrame) (q : Option (List Expr)) (epk : Bool)
      (ex : DataFrame → DataFrame) (dm : ADMDatamart),
      ADMDatamart.init none pd q epk ex = .ok dm →
      dm.context_keys = ["Channel", "Direction", "Issue", "Group", "Name"]) := by
  constructor
  · intro df0 pd q epk ex dm hinit
    obtain ⟨m, ck, p, hv, hp, hdm⟩ := init_ok_elim hinit
    obtain ⟨schema, t, hs, hl, hck, hm⟩ := validate_model_some_ok hv
    have hschema : schema = capSchema df0 := by
      have : schemaOf (_polars_capitalize (.scan df0)) = .ok (capSchema df0) := rfl
      rw [this] at hs
      exact (Except.ok.inj hs).symm
    subst hschema
    have hckeq : dm.context_keys =
        ["Channel", "Direction", "Issue", "Group", "Name", "Treatment"].filter
          (fun k => decide (k ∈ (capSchema df0).names)) := by
      rw [hdm]
      show ck = _
      rw [hck]
      by_cases hT : "Treatment" ∈ (capSchema df0).names
      · rw [if_pos hT]
        rfl
      · rw [if_neg hT]
        show List.filter _ initContextKeys = _
        have : (["Channel", "Direction", "Issue", "Group", "Name", "Treatment"] :
            List String) = initContextKeys ++ ["Treatment"] := rfl
        rw [this, List.filter_append]
        simp [hT]
    refine ⟨hckeq, ?_, ?_⟩
    · rw [hckeq]
      exact List.filter_sublist _
    · rw [hckeq]
      simp [List.mem_filter]
  · intro pd q epk ex dm hinit
    obtain ⟨m, ck, p, hv, hp, hdm⟩ := init_ok_elim hinit
    have hv' : (Except.ok (none, initContextKeys) :
        Except String (Option LazyFrame × List String)) = .ok (m, ck) := by
      rw [← hv]
      rfl
    have hck : ck = initContextKeys := ((Prod.mk.injEq _ _ _ _).mp (Except.ok.inj hv')).2.symm
    rw [hdm]
    show ck = _
    rw [hck]
    rfl

/-- C3 (witness): both parts at concrete inputs — a model schema holding
`Channel`, `Name`, `Treatment` (plus the required columns) yields context
keys `[Channel, Name, Treatment]`, and an absent model dataset yields the
five candidates. -/
theorem C3_context_keys_witness :
    ((⟨["Channel", "Name", "Treatment"],
        some (.withColumns [("SuccessRate", successRateExpr)]
          (.rename capName (.scan
            { schema := [("Channel", .strT), ("Name", .strT), ("Treatment", .strT),
                ("Positives", .intT), ("ResponseCount", .intT),
                ("SnapshotTime", .datetimeT)],
              rows := [] }))), none, none⟩ : ADMDatamart).context_keys =
      ["Channel", "Direction", "Issue", "Group", "Name", "Treatment"].filter
        (fun k => decide (k ∈ (capSchema
          ⟨[("Channel", .strT), ("Name", .strT), ("Treatment", .strT),
              ("Positives", .intT), ("ResponseCount", .intT),
              ("SnapshotTime", .datetimeT)], []⟩).names))) ∧
    ((⟨["Channel", "Direction", "Issue", "Group", "Name"], none, none, none⟩ :
        ADMDatamart).context_keys =
      ["Channel", "Direction", "Issue", "Group", "Name"]) := by
  constructor
  · exact (C3_context_keys.1
      { schema := [("Channel", .strT), ("Name", .strT), ("Treatment", .strT),
          ("Positives", .intT), ("ResponseCount", .intT),
          ("SnapshotTime", .datetimeT)],
        rows := [] } none none false _extract_keys _ rfl).1
  · have h0 : ADMDatamart.init none none none true _extract_keys =
        .ok ⟨["Channel", "Direction", "Issue", "Group", "Name"], none, none, none⟩ := rfl
    exact C3_context_keys.2 none none true _extract_keys _ h0

/-- C10: the context keys are computed from the schema captured before
key extraction runs, so a column absent from the capitalized input
schema — even one the extraction step adds, such as `Treatment` — never
appears in the context-key list, for any extraction function. -/
theorem C10_keys_ignore_extracted {df0 : DataFrame} {pd : Option LazyFrame}
    {q : Option (List Expr)} {epk : Bool} {ex : DataFrame → DataFrame}
    {dm : ADMDatamart}
    (hinit : ADMDatamart.init (some (.scan df0)) pd q epk ex = .ok dm) :
    ∀ c, ¬ c ∈ (capSchema df0).names → ¬ c ∈ dm.context_keys := by
  intro c hc hmem
  obtain ⟨m, ck, p, hv, hp, hdm⟩ := init_ok_elim hinit
  obtain ⟨schema, t, hs, hl, hck, hm⟩ := validate_model_some_ok hv
  have hschema : schema = capSchema df0 := by
    have : schemaOf (_polars_capitalize (.scan df0)) = .ok (capSchema df0) := rfl
    rw [this] at hs
    exact (Except.ok.inj hs).symm
  subst hschema
  rw [hdm] at hmem
  replace hmem : c ∈ ck := hmem
  rw [hck] at hmem
  have := List.of_mem_filter hmem
  exact hc (of_decide_eq_true this)

/-- C10 (witness): a model input whose `Name` cell encodes a `Treatment`
sub-key: the extraction step materializes a `Treatment` column in the
dataset, yet `Treatment` is not among the context keys. -/
theorem C10_keys_ignore_extracted_witness :
    (ADMDatamart.init (some (.scan
        { schema := [("Name", .strT), ("Positives", .intT), ("ResponseCount", .intT),
            ("SnapshotTime", .datetimeT)],
          rows := [[("Name", .str "Treatment=X/Foo=Y"), ("Positives", .int 1),
            ("ResponseCount", .int 2), ("SnapshotTime", .dt 0)]] }))
        none none true _extract_keys).map
      (fun dm => dm.model_data.map (fun lf => (collect lf).map
        (fun out => decide ("Treatment" ∈ out.schema.names)))) =
      .ok (some (.ok true)) ∧
    ¬ "Treatment" ∈
      (⟨["Name"],
        some (.withColumns [("SuccessRate", successRateExpr)]
          (.mapFrame _extract_keys (.rename capName (.scan
            { schema := [("Name", .strT), ("Positives", .intT), ("ResponseCount", .intT),
                ("SnapshotTime", .datetimeT)],
              rows := [[("Name", .str "Treatment=X/Foo=Y"), ("Positives", .int 1),
                ("ResponseCount", .int 2), ("SnapshotTime", .dt 0)]] })))),
        none, none⟩ : ADMDatamart).context_keys := by
  constructor
  · rfl
  · have hinit : ADMDatamart.init (some (.scan
        { schema := [("Name", .strT), ("Positives", .intT), ("ResponseCount", .intT),
            ("SnapshotTime", .datetimeT)],
          rows := [[("Name", .str "Treatment=X/Foo=Y"), ("Positives", .int 1),
            ("ResponseCount", .int 2), ("SnapshotTime", .dt 0)]] }))
        none none true _extract_keys =
        .ok ⟨["Name"],
          some (.withColumns [("SuccessRate", successRateExpr)]
            (.mapFrame _extract_keys (.rename capName (.scan
              { schema := [("Name", .strT), ("Positives", .intT), ("ResponseCount", .intT),
                  ("SnapshotTime", .datetimeT)],
                rows := [[("Name", .str "Treatment=X/Foo=Y"), ("Positives", .int 1),
                  ("ResponseCount", .int 2), ("SnapshotTime", .dt 0)]] })))),
          none, none⟩ := rfl
    exact C10_keys_ignore_extracted hinit "Treatment" (by decide)

/-! ### C4: absence of the combined view -/

/-- C4: for every successful construction, if the model or the
predictor dataset is absent then the combined dataset is absent; and
with the predictor dataset absent the predictor accessor is absent
while a present model input still populates the model accessor. -/
theorem C4_combined_absent (md pd : Option LazyFrame) (q : Option (List Expr))
    (epk : Bool) (ex : DataFrame → DataFrame) (dm : ADMDatamart)
    (hinit : ADMDatamart.init md pd q epk ex = .ok dm) :
    ((md = none ∨ pd = none) → dm.combined_data = none) ∧
    (pd = none → dm.predictor_data = none ∧ (md ≠ none → dm.model_data ≠ none)) := by
  obtain ⟨m, ck, p, hv, hp, hdm⟩ := init_ok_elim hinit
  constructor
  · rintro (hmd | hpd)
    · subst hmd
      have hm : m = none := by
        have hv' : (Except.ok (none, initContextKeys) :
            Except String (Option LazyFrame × List String)) = .ok (m, ck) := by
          rw [← hv]
          rfl
        exact ((Prod.mk.injEq _ _ _ _).mp (Except.ok.inj hv')).1.symm
      subst hm
      rw [hdm]
      show _combine_data none p = none
      cases p <;> rfl
    · subst hpd
      have hpn : p = none := by
        have hp' : (Except.ok none : Except String (Option LazyFrame)) = .ok p := by
          rw [← hp]
          rfl
        exact (Except.ok.inj hp').symm
      subst hpn
      rw [hdm]
      show _combine_data m none = none
      cases m <;> rfl
  · intro hpd
    subst hpd
    have hpn : p = none := by
      have hp' : (Except.ok none : Except String (Option LazyFrame)) = .ok p := by
        rw [← hp]
        rfl
      exact (Except.ok.inj hp').symm
    subst hpn
    refine ⟨by rw [hdm], ?_⟩
    intro hmd
    obtain ⟨df0, hdf0⟩ := Option.ne_none_iff_exists'.mp hmd
    subst hdf0
    obtain ⟨schema, t, hs, hl, hck, hm⟩ := validate_model_some_ok hv
    rw [hdm]
    show m ≠ none
    rw [hm]
    exact Option.some_ne_none _

/-- C4 (witness): a datamart built from a present model dataset and an
absent predictor dataset has an absent combined view, an absent
predictor accessor, and a populated model accessor. -/
theorem C4_combined_absent_witness :
    (⟨[], some (.withColumns [("SuccessRate", successRateExpr)]
        (.rename capName (.scan
          { schema := [("Positives", .intT), ("ResponseCount", .intT),
              ("SnapshotTime", .datetimeT)], rows := [] }))),
      none, none⟩ : ADMDatamart).combined_data = none ∧
    (⟨[], some (.withColumns [("SuccessRate", successRateExpr)]
        (.rename capName (.scan
          { schema := [("Positives", .intT), ("ResponseCount", .intT),
              ("SnapshotTime", .datetimeT)], rows := [] }))),
      none, none⟩ : ADMDatamart).predictor_data = none ∧
    (⟨[], some (.withColumns [("SuccessRate", successRateExpr)]
        (.rename capName (.scan
          { schema := [("Positives", .intT), ("ResponseCount", .intT),
              ("SnapshotTime", .datetimeT)], rows := [] }))),
      none, none⟩ : ADMDatamart).model_data ≠ none := by
  have hinit : ADMDatamart.init (some (.scan
      ({ schema := [("Positives", .intT), ("ResponseCount", .intT),
          ("SnapshotTime", .datetimeT)], rows := [] } : DataFrame)))
      none none true _extract_keys =
      .ok ⟨[], some (.withColumns [("SuccessRate", successRateExpr)]
        (.rename capName (.scan
          { schema := [("Positives", .intT), ("ResponseCount", .intT),
              ("SnapshotTime", .datetimeT)], rows := [] }))),
        none, none⟩ := rfl
  have h := C4_combined_absent _ _ _ _ _ _ hinit
  exact ⟨h.1 (Or.inr rfl), (h.2 rfl).1,
    (h.2 rfl).2 (Option.some_ne_none _)⟩

/-! ### C5: the query filters the model side only -/

/-- Reassembling a construction from its two successful validations. -/
theorem init_ok_intro {md pd : Option LazyFrame} {q : Option (List Expr)}
    {epk : Bool} {ex : DataFrame → DataFrame} {m : Option LazyFrame}
    {ck : List String} {p : Option LazyFrame}
    (hv : _validate_model_data md q epk ex initContextKeys = .ok (m, ck))
    (hp : _validate_predictor_data pd = .ok p) :
    ADMDatamart.init md pd q epk ex = .ok ⟨ck, m, p, _combine_data m p⟩ := by
  unfold ADMDatamart.init
  rw [hv]
  simp only [Bind.bind, Except.bind]
  rw [hp]

/-- The query enters the model validation only as the final
`_apply_query` step: validating with a query equals validating without
one and then applying the query to the resulting frame. -/
theorem validate_model_query_factor (md : Option LazyFrame)
    (q : Option (List Expr)) (epk : Bool) (ex : DataFrame → DataFrame)
    (ck : List String) :
    _validate_model_data md q epk ex ck =
      (_validate_model_data md none epk ex ck).map
        (fun r => (r.1.map (fun lf => _apply_query lf q), r.2)) := by
  cases md with
  | none => rfl
  | some df0 =>
      simp only [_validate_model_data]
      cases hs : schemaOf (_polars_capitalize df0) with
      | error e => simp [Bind.bind, Except.bind, Except.map]
      | ok schema =>
          simp only [Bind.bind, Except.bind]
          cases hl : lookupD schema "SnapshotTime" with
          | none => simp [Except.map]
          | some t =>
              simp only [Except.map]
              rfl

/-- C5: (a) a query predicate restricts the model dataset to exactly the
rows satisfying it; (b) the predictor dataset is unaffected by the
query; (c) an absent or empty query leaves the construction unchanged. -/
theorem C5_query_model_only :
    (∀ (md pd : Option LazyFrame) (epk : Bool) (ex : DataFrame → DataFrame)
      (e : Expr) (dm0 : ADMDatamart) (lf0 : LazyFrame) (out : DataFrame),
      ADMDatamart.init md pd none epk ex = .ok dm0 →
      dm0.model_data = some lf0 →
      collect lf0 = .ok out →
      (∀ c ∈ e.cols, c ∈ out.schema.names) →
      ∃ dm1, ADMDatamart.init md pd (some [e]) epk ex = .ok dm1 ∧
        dm1.model_data = some (.filterRows e lf0) ∧
        dm1.context_keys = dm0.context_keys ∧
        dm1.predictor_data = dm0.predictor_data ∧
        collect (.filterRows e lf0) =
          .ok { out with rows := out.rows.filter (fun r => isTrueV (evalExpr e r)) }) ∧
    (∀ (md pd : Option LazyFrame) (q : Option (List Expr)) (epk : Bool)
      (ex : DataFrame → DataFrame),
      (ADMDatamart.init md pd q epk ex).map (fun dm => dm.predictor_data) =
      (ADMDatamart.init md pd none epk ex).map (fun dm => dm.predictor_data)) ∧
    (∀ (md pd : Option LazyFrame) (epk : Bool) (ex : DataFrame → DataFrame),
      ADMDatamart.init md pd (some []) epk ex = ADMDatamart.init md pd none epk ex) := by
  refine ⟨?_, ?_, ?_⟩
  · intro md pd epk ex e dm0 lf0 out hinit hmd hcol hcols
    obtain ⟨m, ck, p, hv, hp, hdm⟩ := init_ok_elim hinit
    rw [hdm] at hmd
    replace hmd : m = some lf0 := hmd
    have hvq : _validate_model_data md (some [e]) epk ex initContextKeys =
        .ok (some (.filterRows e lf0), ck) := by
      rw [validate_model_query_factor, hv, hmd]
      rfl
    refine ⟨⟨ck, some (.filterRows e lf0), p, _combine_data _ p⟩,
      init_ok_intro hvq hp, rfl, by rw [hdm], by rw [hdm], ?_⟩
    unfold collect
    rw [hcol]
    simp only [Bind.bind, Except.bind]
    rw [if_pos hcols]
  · intro md pd q epk ex
    unfold ADMDatamart.init
    rw [validate_model_query_factor md q epk ex initContextKeys]
    cases hV : _validate_model_data md none epk ex initContextKeys with
    | error e => simp [Bind.bind, Except.bind, Except.map]
    | ok r =>
        obtain ⟨m, ck⟩ := r
        simp only [Bind.bind, Except.bind, Except.map]
        cases hp : _validate_predictor_data pd with
        | error e => rfl
        | ok p => rfl
  · intro md pd epk ex
    unfold ADMDatamart.init
    rw [validate_model_query_factor md (some []) epk ex initContextKeys]
    have hid : (_validate_model_data md none epk ex initContextKeys).map
        (fun r => (r.1.map (fun lf => _apply_query lf (some [])), r.2)) =
        _validate_model_data md none epk ex initContextKeys := by
      cases h : _validate_model_data md none epk ex initContextKeys with
      | error e => rfl
      | ok r =>
          obtain ⟨m, ck⟩ := r
          cases m <;> rfl
    rw [hid]

/-- C5 (witness): the spec's scenario — the query
`ResponseCount > 100` applied at construction keeps exactly the rows
with `ResponseCount > 100` in the model dataset, and the predictor
dataset (absent here) is untouched. -/
theorem C5_query_model_only_witness :
    ∃ dm1, ADMDatamart.init
        (some (.scan
          { schema := [("Positives", .intT), ("ResponseCount", .intT),
              ("SnapshotTime", .datetimeT)],
            rows := [[("Positives", .int 10), ("ResponseCount", .int 150),
                ("SnapshotTime", .dt 0)],
              [("Positives", .int 5), ("ResponseCount", .int 50),
                ("SnapshotTime", .dt 0)]] }))
        none (some [.gt (.col "ResponseCount") (.lit (.int 100))]) true
        _extract_keys = .ok dm1 ∧
      dm1.model_data = some (.filterRows (.gt (.col "ResponseCount") (.lit (.int 100)))
        (.withColumns [("SuccessRate", successRateExpr)]
          (.rename capName (.scan
            { schema := [("Positives", .intT), ("ResponseCount", .intT),
                ("SnapshotTime", .datetimeT)],
              rows := [[("Positives", .int 10), ("ResponseCount", .int 150),
                  ("SnapshotTime", .dt 0)],
                [("Positives", .int 5), ("ResponseCount", .int 50),
                  ("SnapshotTime", .dt 0)]] })))) ∧
      dm1.context_keys = [] ∧
      dm1.predictor_data = none ∧
      collect (.filterRows (.gt (.col "ResponseCount") (.lit (.int 100)))
        (.withColumns [("SuccessRate", successRateExpr)]
          (.rename capName (.scan
            { schema := [("Positives", .intT), ("ResponseCount", .intT),
                ("SnapshotTime", .datetimeT)],
              rows := [[("Positives", .int 10), ("ResponseCount", .int 150),
                  ("SnapshotTime", .dt 0)],
                [("Positives", .int 5), ("ResponseCount", .int 50),
                  ("SnapshotTime", .dt 0)]] })))) =
        .ok { schema := [("Positives", .intT), ("ResponseCount", .intT),
                ("SnapshotTime", .datetimeT), ("SuccessRate", .floatT)],
              rows := [[("Positives", .int 10), ("ResponseCount", .int 150),
                  ("SnapshotTime", .dt 0), ("SuccessRate", .float (.fin (10/150)))],
                [("Positives", .int 5), ("ResponseCount", .int 50),
                  ("SnapshotTime", .dt 0), ("SuccessRate", .float (.fin (5/50)))]].filter
                (fun r => isTrueV (evalExpr
                  (.gt (.col "ResponseCount") (.lit (.int 100))) r)) } := by
  have hinit : ADMDatamart.init (some (.scan
      { schema := [("Positives", .intT), ("ResponseCount", .intT),
          ("SnapshotTime", .datetimeT)],
        rows := [[("Positives", .int 10), ("ResponseCount", .int 150),
            ("SnapshotTime", .dt 0)],
          [("Positives", .int 5), ("ResponseCount", .int 50),
            ("SnapshotTime", .dt 0)]] }))
      none none true _extract_keys =
      .ok ⟨[], some (.withColumns [("SuccessRate", successRateExpr)]
        (.rename capName (.scan
          { schema := [("Positives", .intT), ("ResponseCount", .intT),
              ("SnapshotTime", .datetimeT)],
            rows := [[("Positives", .int 10), ("ResponseCount", .int 150),
                ("SnapshotTime", .dt 0)],
              [("Positives", .int 5), ("ResponseCount", .int 50),
                ("SnapshotTime", .dt 0)]] }))), none, none⟩ := rfl
  have hcol : collect (.withColumns [("SuccessRate", successRateExpr)]
      (.rename capName (.scan
        { schema := [("Positives", .intT), ("ResponseCount", .intT),
            ("SnapshotTime", .datetimeT)],
          rows := [[("Positives", .int 10), ("ResponseCount", .int 150),
              ("SnapshotTime", .dt 0)],
            [("Positives", .int 5), ("ResponseCount", .int 50),
              ("SnapshotTime", .dt 0)]] }))) =
      .ok { schema := [("Positives", .intT), ("ResponseCount", .intT),
              ("SnapshotTime", .datetimeT), ("SuccessRate", .floatT)],
            rows := [[("Positives", .int 10), ("ResponseCount", .int 150),
                ("SnapshotTime", .dt 0), ("SuccessRate", .float (.fin (10/150)))],
              [("Positives", .int 5), ("ResponseCount", .int 50),
                ("SnapshotTime", .dt 0), ("SuccessRate", .float (.fin (5/50)))]] } := rfl
  exact C5_query_model_only.1 _ _ _ _ _ _ _ _ hinit rfl hcol (by decide)

/-! ### C6: where schema errors surface -/

/-- C6 (counterexample): the claim — that for EVERY missing required
column (Positives, ResponseCount, or SnapshotTime) construction of the
lazy pipeline succeeds and the error surfaces at materialization — is
false for `SnapshotTime`: a model input with `Positives` and
`ResponseCount` but no `SnapshotTime` fails already at construction,
because the schema is inspected eagerly for its dtype. -/
theorem C6_counterexample :
    ADMDatamart.init (some (.scan
        { schema := [("Positives", .intT), ("ResponseCount", .intT)],
          rows := [[("Positives", .int 1), ("ResponseCount", .int 2)]] }))
      none none true _extract_keys = .error "SnapshotTime not found" := rfl

/-- C6 (amended): for a model input missing `Positives` or
`ResponseCount` (with `SnapshotTime` present as a datetime), the lazy
pipeline is constructed successfully and the column-not-found error
surfaces only when the model dataset is materialized; a missing
`SnapshotTime`, by contrast, errors at construction. -/
theorem C6_deferred_error (df0 : DataFrame) (epk : Bool)
    (ex : DataFrame → DataFrame)
    (hmiss : ¬ "Positives" ∈ (capSchema df0).names ∨
      ¬ "ResponseCount" ∈ (capSchema df0).names)
    (hST : lookupD (capSchema df0) "SnapshotTime" = some .datetimeT)
    (hName : ¬ "Name" ∈ (capSchema df0).names) :
    ∃ dm lf, ADMDatamart.init (some (.scan df0)) none none epk ex = .ok dm ∧
      dm.model_data = some lf ∧ collect lf = .error "column not found" := by
  have hvq : _validate_model_data (some (.scan df0)) none epk ex initContextKeys =
      .ok (some (.withColumns [("SuccessRate", successRateExpr)]
          (_polars_capitalize (.scan df0))),
        (if "Treatment" ∈ (capSchema df0).names then
            initContextKeys ++ ["Treatment"] else initContextKeys).filter
          (fun k => decide (k ∈ (capSchema df0).names))) := by
    simp only [_validate_model_data]
    rw [show schemaOf (_polars_capitalize (.scan df0)) = .ok (capSchema df0) from rfl]
    simp only [Bind.bind, Except.bind]
    rw [hST, if_neg (by simp [hName] : ¬ (epk = true ∧ "Name" ∈ (capSchema df0).names))]
    rfl
  refine ⟨_, _, init_ok_intro hvq rfl, rfl, ?_⟩
  have hcheck : ¬ ∀ a ∈ [("SuccessRate", successRateExpr)],
      ∀ c ∈ (Prod.snd a).cols, c ∈ (renameDF capName df0).schema.names := by
    intro hall
    have h1 := hall ("SuccessRate", successRateExpr) (by simp) "Positives" (by decide)
    have h2 := hall ("SuccessRate", successRateExpr) (by simp) "ResponseCount" (by decide)
    rcases hmiss with h | h
    · exact h h1
    · exact h h2
  show collect (.withColumns [("SuccessRate", successRateExpr)]
      (_polars_capitalize (.scan df0))) = _
  unfold collect
  rw [show collect (_polars_capitalize (.scan df0)) = .ok (renameDF capName df0)
    from rfl]
  simp only [Bind.bind, Except.bind]
  rw [if_neg hcheck]

/-- C6 (witness): the amended theorem at a concrete input missing
`Positives`: construction succeeds and materialization fails. -/
theorem C6_deferred_error_witness :
    ∃ dm lf, ADMDatamart.init (some (.scan
        { schema := [("ResponseCount", .intT), ("SnapshotTime", .datetimeT)],
          rows := [[("ResponseCount", .int 2), ("SnapshotTime", .dt 0)]] }))
      none none true _extract_keys = .ok dm ∧
      dm.model_data = some lf ∧ collect lf = .error "column not found" :=
  C6_deferred_error
    { schema := [("ResponseCount", .intT), ("SnapshotTime", .datetimeT)],
      rows := [[("ResponseCount", .int 2), ("SnapshotTime", .dt 0)]] }
    true _extract_keys (Or.inl (by decide)) rfl (by decide)

/-! ### C7: categorization is guarded at the call site only -/

theorem getV_foldl_setCol (vs : List (String × Value)) (r : Row) (c : String)
    (h : ∀ v ∈ vs, v.1 ≠ c) :
    getV (vs.foldl (fun acc p => setCol acc p.1 p.2) r) c = getV r c := by
  induction vs generalizing r with
  | nil => rfl
  | cons v rest ih =>
      rw [List.foldl_cons, ih _ (fun x hx => h x (List.mem_cons_of_mem _ hx)),
        getV_setCol_ne _ _ _ _ (h v (List.mem_cons_self _ _)).symm]

/-- A `with_columns` that writes only other columns leaves a column's
cell unchanged. -/
theorem getV_wcRow_ne (assigns : List (String × Expr)) (r : Row) (c : String)
    (h : ∀ a ∈ assigns, a.1 ≠ c) :
    getV (wcRow assigns r) c = getV r c := by
  unfold wcRow
  apply getV_foldl_setCol
  intro v hv
  obtain ⟨a, ha, rfl⟩ := List.mem_map.mp hv
  exact h a ha

/-- C7: during predictor validation the categorization is applied only
when the input schema lacks `PredictorCategory` — re-validating
already-categorized data leaves every `PredictorCategory` cell untouched
— whereas calling `apply_predictor_categorization` directly writes the
`PredictorCategory` column unconditionally (overwriting any existing
one), with a callable rule invoked once to obtain the expression. -/
theorem C7_categorization_guard :
    (∀ (df0 : DataFrame) (m : Option LazyFrame) (lf : LazyFrame) (out : DataFrame),
      "PredictorCategory" ∈ (capSchema df0).names →
      _validate_predictor_data (some (.scan df0)) = .ok m →
      m = some lf →
      collect lf = .ok out →
      out.rows.map (fun r => getV r "PredictorCategory") =
        (renameDF capName df0).rows.map (fun r => getV r "PredictorCategory")) ∧
    (∀ (lf : LazyFrame) (cat : CatRule) (out0 : DataFrame),
      collect lf = .ok out0 →
      (∀ c ∈ (CatRule.resolve cat).cols, c ∈ out0.schema.names) →
      collect (apply_predictor_categorization lf cat) =
        .ok { schema := updSchema out0.schema "PredictorCategory"
                (exprDType out0.schema (CatRule.resolve cat)),
              rows := out0.rows.map (fun r =>
                setCol r "PredictorCategory" (evalExpr (CatRule.resolve cat) r)) }) ∧
    (∀ (lf : LazyFrame) (f : Unit → Expr),
      apply_predictor_categorization lf (.factory f) =
        apply_predictor_categorization lf (.expr (f ()))) := by
  refine ⟨?_, ?_, ?_⟩
  · intro df0 m lf out hpc hval hm hcol
    obtain ⟨S', hS', hm'⟩ := validate_predictor_some_ok hval
    have hSS : S' = capSchema df0 := by
      rw [show schemaOf (_polars_capitalize (.scan df0)) = .ok (capSchema df0)
        from rfl] at hS'
      exact (Except.ok.inj hS').symm
    subst hSS
    rw [hm] at hm'
    have hlf := Option.some.inj hm'
    rw [if_neg (not_not_intro hpc)] at hlf
    subst hlf
    by_cases hrc : "BinResponseCount" ∈ (capSchema df0).names
    · rw [if_neg (not_not_intro hrc)] at hcol
      obtain ⟨out1, hc1, hrows1⟩ := collect_withColumns_ok hcol
      have hout1 : out1 = renameDF capName df0 := by
        rw [show collect (_polars_capitalize (.scan df0)) = .ok (renameDF capName df0)
          from rfl] at hc1
        exact (Except.ok.inj hc1).symm
      subst hout1
      rw [hrows1, List.map_map]
      exact List.map_congr_left (fun r _ => getV_wcRow_ne _ r _ (by decide))
    · rw [if_pos hrc] at hcol
      obtain ⟨out1, hc1, hrows1⟩ := collect_withColumns_ok hcol
      obtain ⟨out0, hc0, hrows0⟩ := collect_withColumns_ok hc1
      have hout0 : out0 = renameDF capName df0 := by
        rw [show collect (_polars_capitalize (.scan df0)) = .ok (renameDF capName df0)
          from rfl] at hc0
        exact (Except.ok.inj hc0).symm
      subst hout0
      rw [hrows1, hrows0, List.map_map, List.map_map]
      refine List.map_congr_left (fun r _ => ?_)
      show getV (wcRow binPropensityAssigns (wcRow _ r)) "PredictorCategory" = _
      rw [getV_wcRow_ne _ _ _ (by decide), getV_wcRow_ne _ _ _ (by decide)]
  · intro lf cat out0 hc0 hcols
    cases cat with
    | expr e =>
        show collect (.withColumns [("PredictorCategory", e)] lf) = _
        unfold collect
        rw [hc0]
        simp only [Bind.bind, Except.bind]
        rw [if_pos (by simpa using hcols)]
        have hrows : out0.rows.map (wcRow [("PredictorCategory", e)]) =
            out0.rows.map (fun r =>
              setCol r "PredictorCategory" (evalExpr e r)) :=
          List.map_congr_left (fun r _ => wcRow_single _ _ r)
        rw [hrows]
        rfl
    | factory f =>
        show collect (.withColumns [("PredictorCategory", f ())] lf) = _
        unfold collect
        rw [hc0]
        simp only [Bind.bind, Except.bind]
        rw [if_pos (by simpa using hcols)]
        have hrows : out0.rows.map (wcRow [("PredictorCategory", f ())]) =
            out0.rows.map (fun r =>
              setCol r "PredictorCategory" (evalExpr (f ()) r)) :=
          List.map_congr_left (fun r _ => wcRow_single _ _ r)
        rw [hrows]
        rfl
  · intro lf f
    rfl

/-- C7 (witness): re-validating an already-categorized predictor row
keeps its custom category, while a direct call on the same materialized
data overwrites the column via the default rule. -/
theorem C7_categorization_guard_witness :
    ([[("BinPositives", Value.int 1), ("BinNegatives", Value.int 1),
        ("PredictorName", Value.str "Age"), ("PredictorCategory", Value.str "Custom"),
        ("BinResponseCount", Value.int 2), ("BinPropensity", .float (.fin (1/2))),
        ("BinAdjustedPropensity", .float (.fin ((1 + 1/2) / 3)))]].map
      (fun r => getV r "PredictorCategory") =
    (renameDF capName
      { schema := [("BinPositives", .intT), ("BinNegatives", .intT),
          ("PredictorName", .strT), ("PredictorCategory", .strT),
          ("BinResponseCount", .intT)],
        rows := [[("BinPositives", Value.int 1), ("BinNegatives", Value.int 1),
          ("PredictorName", Value.str "Age"),
          ("PredictorCategory", Value.str "Custom"),
          ("BinResponseCount", Value.int 2)]] }).rows.map
      (fun r => getV r "PredictorCategory")) ∧
    collect (apply_predictor_categorization (.scan
        { schema := [("PredictorName", .strT), ("PredictorCategory", .strT)],
          rows := [[("PredictorName", Value.str "Age"),
            ("PredictorCategory", Value.str "Custom")]] })
      (.factory default_predictor_categorization)) =
      .ok { schema := updSchema [("PredictorName", .strT), ("PredictorCategory", .strT)]
              "PredictorCategory"
              (exprDType [("PredictorName", .strT), ("PredictorCategory", .strT)]
                (CatRule.resolve (.factory default_predictor_categorization))),
            rows := [[("PredictorName", Value.str "Age"),
              ("PredictorCategory", Value.str "Custom")]].map
              (fun r => setCol r "PredictorCategory"
                (evalExpr (CatRule.resolve
                  (.factory default_predictor_categorization)) r)) } := by
  constructor
  · have hval : _validate_predictor_data (some (.scan
        { schema := [("BinPositives", .intT), ("BinNegatives", .intT),
            ("PredictorName", .strT), ("PredictorCategory", .strT),
            ("BinResponseCount", .intT)],
          rows := [[("BinPositives", Value.int 1), ("BinNegatives", Value.int 1),
            ("PredictorName", Value.str "Age"),
            ("PredictorCategory", Value.str "Custom"),
            ("BinResponseCount", Value.int 2)]] })) =
        .ok (some (.withColumns binPropensityAssigns
          (.rename capName (.scan
            { schema := [("BinPositives", .intT), ("BinNegatives", .intT),
                ("PredictorName", .strT), ("PredictorCategory", .strT),
                ("BinResponseCount", .intT)],
              rows := [[("BinPositives", Value.int 1), ("BinNegatives", Value.int 1),
                ("PredictorName", Value.str "Age"),
                ("PredictorCategory", Value.str "Custom"),
                ("BinResponseCount", Value.int 2)]] })))) := rfl
    have hcol : collect (.withColumns binPropensityAssigns
        (.rename capName (.scan
          { schema := [("BinPositives", .intT), ("BinNegatives", .intT),
              ("PredictorName", .strT), ("PredictorCategory", .strT),
              ("BinResponseCount", .intT)],
            rows := [[("BinPositives", Value.int 1), ("BinNegatives", Value.int 1),
              ("PredictorName", Value.str "Age"),
              ("PredictorCategory", Value.str "Custom"),
              ("BinResponseCount", Value.int 2)]] }))) =
        .ok { schema := [("BinPositives", .intT), ("BinNegatives", .intT),
                ("PredictorName", .strT), ("PredictorCategory", .strT),
                ("BinResponseCount", .intT), ("BinPropensity", .floatT),
                ("BinAdjustedPropensity", .floatT)],
              rows := [[("BinPositives", Value.int 1), ("BinNegatives", Value.int 1),
                ("PredictorName", Value.str "Age"),
                ("PredictorCategory", Value.str "Custom"),
                ("BinResponseCount", Value.int 2),
                ("BinPropensity", .float (.fin (1/2))),
                ("BinAdjustedPropensity", .float (.fin ((1 + 1/2) / 3)))]] } := rfl
    exact C7_categorization_guard.1 _ _ _ _ (by decide) hval rfl hcol
  · exact C7_categorization_guard.2.1 (.scan
      { schema := [("PredictorName", .strT), ("PredictorCategory", .strT)],
        rows := [[("PredictorName", Value.str "Age"),
          ("PredictorCategory", Value.str "Custom")]] })
      (.factory default_predictor_categorization) _ rfl (by decide)

/-! ### C8: persistence naming -/

theorem digitChar_isDigit : ∀ d : ℕ, (digitChar d).isDigit = true
  | 0 => rfl
  | 1 => rfl
  | 2 => rfl
  | 3 => rfl
  | 4 => rfl
  | 5 => rfl
  | 6 => rfl
  | 7 => rfl
  | 8 => rfl
  | _ + 9 => rfl

/-- The compact timestamp always has the shape `YYYYMMDDThhmmss.mmm`. -/
theorem tsShape_strftime (t : PyDateTime) : tsShape (strftimeCompact t) = true := by
  have hred : tsShape (strftimeCompact t) =
      ([digitChar (t.year / 10 ^ 3 % 10), digitChar (t.year / 10 ^ 2 % 10),
        digitChar (t.year / 10 ^ 1 % 10), digitChar (t.year / 10 ^ 0 % 10),
        digitChar (t.month / 10 ^ 1 % 10), digitChar (t.month / 10 ^ 0 % 10),
        digitChar (t.day / 10 ^ 1 % 10), digitChar (t.day / 10 ^ 0 % 10),
        digitChar (t.hour / 10 ^ 1 % 10), digitChar (t.hour / 10 ^ 0 % 10),
        digitChar (t.minute / 10 ^ 1 % 10), digitChar (t.minute / 10 ^ 0 % 10),
        digitChar (t.second / 10 ^ 1 % 10), digitChar (t.second / 10 ^ 0 % 10),
        digitChar (t.microsecond / 10 ^ 5 % 10),
        digitChar (t.microsecond / 10 ^ 4 % 10),
        digitChar (t.microsecond / 10 ^ 3 % 10)].all Char.isDigit &&
        ('T' == 'T') && ('.' == '.')) := rfl
  rw [hred]
  simp [digitChar_isDigit]

/-- C8: one compact timestamp is generated per save call and shared by
both artifact names; a present dataset is written under
`cached_model_data_<ts>` / `cached_predictor_data_<ts>` and its location
returned, and an absent dataset yields an absent location with no write
attempted for it. -/
theorem C8_save_data (dm : ADMDatamart) (path : String) (now : PyDateTime) :
    tsShape (strftimeCompact now) = true ∧
    (∀ d, dm.model_data = some d →
      (save_data dm path now).1.1 =
        some (path ++ "/" ++ ("cached_model_data_" ++ strftimeCompact now)) ∧
      ("cached_model_data_" ++ strftimeCompact now, d) ∈ (save_data dm path now).2) ∧
    (dm.model_data = none →
      (save_data dm path now).1.1 = none ∧
      ∀ w ∈ (save_data dm path now).2,
        ∃ d, dm.predictor_data = some d ∧
          w = ("cached_predictor_data_" ++ strftimeCompact now, d)) ∧
    (∀ d, dm.predictor_data = some d →
      (save_data dm path now).1.2 =
        some (path ++ "/" ++ ("cached_predictor_data_" ++ strftimeCompact now)) ∧
      ("cached_predictor_data_" ++ strftimeCompact now, d) ∈ (save_data dm path now).2) ∧
    (dm.predictor_data = none →
      (save_data dm path now).1.2 = none ∧
      ∀ w ∈ (save_data dm path now).2,
        ∃ d, dm.model_data = some d ∧
          w = ("cached_model_data_" ++ strftimeCompact now, d)) := by
  refine ⟨tsShape_strftime now, ?_, ?_, ?_, ?_⟩ <;>
    rcases dm with ⟨ck, md, pd, cb⟩
  · intro d hd
    cases md with
    | none => cases hd
    | some d' =>
        cases hd
        cases pd <;> simp [save_data, cache_to_file]
  · intro hd
    cases md with
    | none =>
        cases pd with
        | none => simp [save_data]
        | some d' => simp [save_data, cache_to_file]
    | some d' => cases hd
  · intro d hd
    cases pd with
    | none => cases hd
    | some d' =>
        cases hd
        cases md <;> simp [save_data, cache_to_file]
  · intro hd
    cases pd with
    | none =>
        cases md with
        | none => simp [save_data]
        | some d' => simp [save_data, cache_to_file]
    | some d' => cases hd

/-- C8 (witness): saving a datamart holding only a model dataset writes
exactly the model artifact, returns its location built from the shared
timestamp, and returns an absent predictor location. -/
theorem C8_save_data_witness :
    tsShape (strftimeCompact ⟨2024, 5, 6, 7, 8, 9, 123456⟩) = true ∧
    (save_data ⟨[], some (.scan ⟨[], []⟩), none, none⟩ "out"
      ⟨2024, 5, 6, 7, 8, 9, 123456⟩).1.1 =
      some ("out" ++ "/" ++ ("cached_model_data_" ++
        strftimeCompact ⟨2024, 5, 6, 7, 8, 9, 123456⟩)) ∧
    ("cached_model_data_" ++ strftimeCompact ⟨2024, 5, 6, 7, 8, 9, 123456⟩,
        LazyFrame.scan ⟨[], []⟩) ∈
      (save_data ⟨[], some (.scan ⟨[], []⟩), none, none⟩ "out"
        ⟨2024, 5, 6, 7, 8, 9, 123456⟩).2 ∧
    (save_data ⟨[], some (.scan ⟨[], []⟩), none, none⟩ "out"
      ⟨2024, 5, 6, 7, 8, 9, 123456⟩).1.2 = none := by
  obtain ⟨h1, h2, h3, h4, h5⟩ := C8_save_data ⟨[], some (.scan ⟨[], []⟩), none, none⟩
    "out" ⟨2024, 5, 6, 7, 8, 9, 123456⟩
  obtain ⟨ha, hb⟩ := h2 (.scan ⟨[], []⟩) rfl
  exact ⟨h1, ha, hb, (h5 rfl).1⟩

end PDStools
